import Mathlib

/-
Verification of the LinguaLog orchestration-and-cache core.

This file gives a shallow embedding of the structured-generation layer of
the repository: the output-contract validator in
backend/gemini_engine.py (GeminiEngine.analyze_text post-processing),
the fallback orchestrator in backend/feedback_engine.py (analyze_entry,
analyze_with_mock), the decode paths of the provider adapters
(backend/gemini_engine.py, backend/mistral_engine.py,
backend/app/ai_engines/gemini_engine.py), and the enrichment cache
service in backend/app/services/ai_enrichment_service.py
(get_or_create_enriched_details_service).  Theorems about these
definitions settle the specification claims.
-/

namespace LinguaLog

/-- JSON-shaped values as produced by Python json.loads.  Python bool is a
subclass of int, so isinstance(x, int) is true for booleans; a float only
ever matters to the code through its non-int type, its payload is carried
as a rational. -/
inductive Json where
  | null
  | jbool (b : Bool)
  | jint (n : Int)
  | jfloat (q : Rat)
  | jstr (s : String)
  | jarr (xs : List Json)
  | jobj (kvs : List (String × Json))

/-- First-match lookup in an association list, modelling Python dict
access (a dict has no duplicate keys, so first-match is exact). -/
def objGet : List (String × Json) → String → Option Json
  | [], _ => none
  | (k, v) :: rest, key => if k = key then some v else objGet rest key

/-- Python dict .get with a default. -/
def objGetD (kvs : List (String × Json)) (key : String) (d : Json) : Json :=
  (objGet kvs key).getD d

/-- Python dict assignment d[key] = v: overwrite in place (keeping the
insertion position) or append when the key is new. -/
def objSet : List (String × Json) → String → Json → List (String × Json)
  | [], key, v => [(key, v)]
  | (k, w) :: rest, key, v =>
    if k = key then (k, v) :: rest else (k, w) :: objSet rest key v

@[simp] theorem objGet_nil (key : String) : objGet [] key = none := rfl

@[simp] theorem objGet_cons (k : String) (v : Json) (rest : List (String × Json))
    (key : String) :
    objGet ((k, v) :: rest) key = if k = key then some v else objGet rest key := rfl

theorem objGet_objSet_self (l : List (String × Json)) (k : String) (v : Json) :
    objGet (objSet l k v) k = some v := by
  induction l with
  | nil => simp [objSet]
  | cons p rest ih =>
    obtain ⟨k', w⟩ := p
    by_cases h : k' = k
    · simp [objSet, h]
    · simp [objSet, h, ih]

theorem objGet_objSet_ne (l : List (String × Json)) (k k' : String) (v : Json)
    (h : k' ≠ k) : objGet (objSet l k' v) k = objGet l k := by
  induction l with
  | nil => simp [objSet, objGet, h]
  | cons p rest ih =>
    obtain ⟨k₀, w⟩ := p
    by_cases h0 : k₀ = k'
    · subst h0
      simp [objSet, h]
    · simp [objSet, h0, ih]

/-- Python isinstance(x, int): holds for int and for bool. -/
def isInstInt : Json → Bool
  | .jint _ => true
  | .jbool _ => true
  | _ => false

/-- The integer value Python comparisons see (True == 1, False == 0). -/
def intVal : Json → Int
  | .jint n => n
  | .jbool b => if b then 1 else 0
  | _ => 0

/-- The check isinstance(x, int) and 0 <= x <= 100 used for the score and
each rubric sub-score. -/
def scoreOk (j : Json) : Bool :=
  isInstInt j && decide (0 ≤ intVal j) && decide (intVal j ≤ 100)

def rubricKeys : List String := ["grammar", "vocabulary", "complexity"]

def defaultRubric : Json :=
  .jobj [("grammar", .jint 0), ("vocabulary", .jint 0), ("complexity", .jint 0)]

/-- One iteration of the rubric repair loop
(backend/gemini_engine.py lines 140-143): an invalid or non-int sub-score
is overwritten with 0 in place. -/
def fixRubricKey (kvs : List (String × Json)) (k : String) : List (String × Json) :=
  match objGet kvs k with
  | some v => if scoreOk v then kvs else objSet kvs k (.jint 0)
  | none => objSet kvs k (.jint 0)

/-- Rubric validation (lines 134-143): a non-dict rubric or one missing a
required key is replaced wholesale by the all-zero default; otherwise each
sub-score is repaired in place. -/
def fixRubric (j : Json) : Json :=
  match j with
  | .jobj kvs =>
    if rubricKeys.all (fun k => (objGet kvs k).isSome) then
      .jobj (rubricKeys.foldl fixRubricKey kvs)
    else defaultRubric
  | _ => defaultRubric

def sugKeys : List String := ["original", "corrected", "note"]

def wordKeys : List String := ["term", "pos", "definition", "example", "proficiency"]

/-- Element check for a list-of-record field: a dict containing each
required sub-field. -/
def recordOk (keys : List String) : Json → Bool
  | .jobj kvs => keys.all (fun k => (objGet kvs k).isSome)
  | _ => false

/-- List-of-record validation (lines 145-171): a non-list becomes the
empty list, and failing elements are dropped silently. -/
def fixList (keys : List String) (j : Json) : Json :=
  match j with
  | .jarr xs => .jarr (xs.filter (recordOk keys))
  | _ => .jarr []

/-- GeminiEngine._get_error_fallback (backend/gemini_engine.py
lines 185-198): the structurally valid record returned when the API call
or the JSON decode fails. -/
def get_error_fallback (text _language errorMsg : String) : Json :=
  .jobj [
    ("corrected", .jstr text),
    ("rewrite", .jstr ("Could not generate rewrite due to an error: " ++ errorMsg)),
    ("score", .jint 0),
    ("rubric", defaultRubric),
    ("tone", .jstr "Error"),
    ("translation", .jstr ("Could not generate translation due to an error: " ++ errorMsg)),
    ("explanation", .jstr ("An error occurred while generating AI feedback: " ++ errorMsg ++ ". Please try again.")),
    ("grammar_suggestions", .jarr []),
    ("new_words", .jarr [])]

/-- The post-processing GeminiEngine.analyze_text applies to the decoded
JSON (backend/gemini_engine.py lines 116-171).  When the decoded value is
not a dict, the first .get raises AttributeError, which lands in the
generic except handler and yields the error-fallback record. -/
def analyze_text_validate (text language : String) (j : Json) : Json :=
  match j with
  | .jobj kvs =>
    let corrected := objGetD kvs "corrected" (.jstr "Content for \x27corrected\x27 not provided by AI.")
    let rewrite := objGetD kvs "rewrite" (.jstr "Content for \x27rewrite\x27 not provided by AI.")
    let score0 := objGetD kvs "score" (.jint 50)
    let tone := objGetD kvs "tone" (.jstr "Neutral")
    let translation := objGetD kvs "translation" (.jstr "Content for \x27translation\x27 not provided by AI.")
    let explanation := objGetD kvs "explanation" (.jstr "No explanation provided by AI.")
    let rubric0 := objGetD kvs "rubric" defaultRubric
    let gs0 := objGetD kvs "grammar_suggestions" (.jarr [])
    let nw0 := objGetD kvs "new_words" (.jarr [])
    let score := if scoreOk score0 then score0 else .jint 50
    .jobj [
      ("corrected", corrected),
      ("rewrite", rewrite),
      ("score", score),
      ("tone", tone),
      ("translation", translation),
      ("explanation", explanation),
      ("rubric", fixRubric rubric0),
      ("grammar_suggestions", fixList sugKeys gs0),
      ("new_words", fixList wordKeys nw0)]
  | _ => get_error_fallback text language "API call/processing error: AttributeError"

/-- The required top-level fields of the EntryFeedback contract. -/
def requiredFields : List String :=
  ["corrected", "rewrite", "score", "tone", "translation", "explanation",
   "rubric", "grammar_suggestions", "new_words"]

/-- The rubric is a dict whose three sub-scores are ints in 0..100. -/
def rubricOk : Json → Bool
  | .jobj kvs => rubricKeys.all (fun k => ((objGet kvs k).map scoreOk).getD false)
  | _ => false

/-- The EntryFeedback output contract checked by claim C1: all required
top-level fields present, score an int in 0..100, rubric sub-scores ints
in 0..100. -/
def contractOk (j : Json) : Bool :=
  match j with
  | .jobj kvs =>
    requiredFields.all (fun k => (objGet kvs k).isSome)
      && ((objGet kvs "score").map scoreOk).getD false
      && ((objGet kvs "rubric").map rubricOk).getD false
  | _ => false

theorem scoreOk_default : scoreOk (.jint 50) = true := rfl

theorem scoreOk_zero : scoreOk (.jint 0) = true := rfl

theorem rubricOk_defaultRubric : rubricOk defaultRubric = true := rfl

theorem fixRubricKey_get_self (kvs : List (String × Json)) (k : String) :
    ((objGet (fixRubricKey kvs k) k).map scoreOk).getD false = true := by
  unfold fixRubricKey
  cases h : objGet kvs k with
  | none => simp [objGet_objSet_self, scoreOk_zero]
  | some v =>
    by_cases hv : scoreOk v
    · simp [hv, h]
    · simp [hv, objGet_objSet_self, scoreOk_zero]

theorem fixRubricKey_get_ne (kvs : List (String × Json)) (k k' : String)
    (h : k' ≠ k) : objGet (fixRubricKey kvs k') k = objGet kvs k := by
  unfold fixRubricKey
  cases h0 : objGet kvs k' with
  | none => simp [objGet_objSet_ne _ _ _ _ h]
  | some v =>
    by_cases hv : scoreOk v
    · simp [hv]
    · simp [hv, objGet_objSet_ne _ _ _ _ h]

theorem rubricOk_fixRubric (j : Json) : rubricOk (fixRubric j) = true := by
  unfold fixRubric
  cases j with
  | jobj kvs =>
    by_cases hall : rubricKeys.all (fun k => (objGet kvs k).isSome)
    · simp only [hall, if_true]
      show rubricOk (.jobj (fixRubricKey (fixRubricKey (fixRubricKey kvs "grammar") "vocabulary") "complexity")) = true
      have hg : ((objGet (fixRubricKey (fixRubricKey (fixRubricKey kvs "grammar") "vocabulary") "complexity") "grammar").map scoreOk).getD false = true := by
        rw [fixRubricKey_get_ne _ _ _ (by decide), fixRubricKey_get_ne _ _ _ (by decide)]
        exact fixRubricKey_get_self _ _
      have hv : ((objGet (fixRubricKey (fixRubricKey (fixRubricKey kvs "grammar") "vocabulary") "complexity") "vocabulary").map scoreOk).getD false = true := by
        rw [fixRubricKey_get_ne _ _ _ (by decide)]
        exact fixRubricKey_get_self _ _
      have hc : ((objGet (fixRubricKey (fixRubricKey (fixRubricKey kvs "grammar") "vocabulary") "complexity") "complexity").map scoreOk).getD false = true := by
        exact fixRubricKey_get_self _ _
      simp [rubricOk, rubricKeys, hg, hv, hc]
    · simp [hall, rubricOk_defaultRubric]
  | null => rfl
  | jbool b => rfl
  | jint n => rfl
  | jfloat q => rfl
  | jstr s => rfl
  | jarr xs => rfl

/-- Field access on a dict-shaped value. -/
def jfield (j : Json) (k : String) : Option Json :=
  match j with
  | .jobj kvs => objGet kvs k
  | _ => none

theorem contractOk_mk (c r t tr e gs nw s ru : Json)
    (hs : scoreOk s = true) (hr : rubricOk ru = true) :
    contractOk (.jobj [("corrected", c), ("rewrite", r), ("score", s),
      ("tone", t), ("translation", tr), ("explanation", e), ("rubric", ru),
      ("grammar_suggestions", gs), ("new_words", nw)]) = true := by
  simp [contractOk, requiredFields, hs, hr]

theorem analyze_text_validate_jobj (text language : String)
    (kvs : List (String × Json)) :
    analyze_text_validate text language (.jobj kvs) =
      .jobj [
        ("corrected", objGetD kvs "corrected" (.jstr "Content for \x27corrected\x27 not provided by AI.")),
        ("rewrite", objGetD kvs "rewrite" (.jstr "Content for \x27rewrite\x27 not provided by AI.")),
        ("score", if scoreOk (objGetD kvs "score" (.jint 50)) then objGetD kvs "score" (.jint 50) else .jint 50),
        ("tone", objGetD kvs "tone" (.jstr "Neutral")),
        ("translation", objGetD kvs "translation" (.jstr "Content for \x27translation\x27 not provided by AI.")),
        ("explanation", objGetD kvs "explanation" (.jstr "No explanation provided by AI.")),
        ("rubric", fixRubric (objGetD kvs "rubric" defaultRubric)),
        ("grammar_suggestions", fixList sugKeys (objGetD kvs "grammar_suggestions" (.jarr []))),
        ("new_words", fixList wordKeys (objGetD kvs "new_words" (.jarr [])))] := rfl

/-- C1: for every decoded adapter output for the EntryFeedback task, the
post-processing of GeminiEngine.analyze_text returns a result in which
every required top-level field is present, the score and each rubric
sub-score are int-typed values in 0..100, an absent score / tone / list
field is replaced by its documented default (50 / "Neutral" / empty), and
a wrong-typed or out-of-range score is replaced by the default 50 rather
than causing failure. -/
theorem c1_entry_feedback_contract :
    (∀ (text language : String) (j : Json),
      contractOk (analyze_text_validate text language j) = true) ∧
    (∀ (text language : String) (kvs : List (String × Json)),
      (objGet kvs "score" = none →
        jfield (analyze_text_validate text language (.jobj kvs)) "score" = some (.jint 50)) ∧
      (objGet kvs "tone" = none →
        jfield (analyze_text_validate text language (.jobj kvs)) "tone" = some (.jstr "Neutral")) ∧
      (objGet kvs "grammar_suggestions" = none →
        jfield (analyze_text_validate text language (.jobj kvs)) "grammar_suggestions" = some (.jarr [])) ∧
      (objGet kvs "new_words" = none →
        jfield (analyze_text_validate text language (.jobj kvs)) "new_words" = some (.jarr [])) ∧
      (∀ v : Json, objGet kvs "score" = some v → scoreOk v = false →
        jfield (analyze_text_validate text language (.jobj kvs)) "score" = some (.jint 50))) := by
  constructor
  · intro text language j
    cases j with
    | jobj kvs =>
      rw [analyze_text_validate_jobj]
      apply contractOk_mk
      · by_cases h : scoreOk (objGetD kvs "score" (.jint 50))
        · simp [h]
        · simp [h, scoreOk_default]
      · exact rubricOk_fixRubric _
    | null => rfl
    | jbool b => rfl
    | jint n => rfl
    | jfloat q => rfl
    | jstr s => rfl
    | jarr xs => rfl
  · intro text language kvs
    refine ⟨?_, ?_, ?_, ?_, ?_⟩
    · intro h
      simp [analyze_text_validate_jobj, jfield, objGetD, h, scoreOk_default]
    · intro h
      simp [analyze_text_validate_jobj, jfield, objGetD, h]
    · intro h
      simp [analyze_text_validate_jobj, jfield, objGetD, h, fixList]
    · intro h
      simp [analyze_text_validate_jobj, jfield, objGetD, h, fixList]
    · intro v hv hbad
      simp [analyze_text_validate_jobj, jfield, objGetD, hv, hbad]

theorem c1_entry_feedback_contract_witness :
    contractOk (analyze_text_validate "text" "English"
      (.jobj [("score", .jstr "high")])) = true ∧
    jfield (analyze_text_validate "text" "English"
      (.jobj [("score", .jstr "high")])) "score" = some (.jint 50) ∧
    jfield (analyze_text_validate "text" "English"
      (.jobj [("score", .jstr "high")])) "tone" = some (.jstr "Neutral") ∧
    jfield (analyze_text_validate "text" "English"
      (.jobj [("score", .jstr "high")])) "grammar_suggestions" = some (.jarr []) ∧
    jfield (analyze_text_validate "text" "English"
      (.jobj [("score", .jstr "high")])) "new_words" = some (.jarr []) :=
  ⟨c1_entry_feedback_contract.1 "text" "English" _,
   (c1_entry_feedback_contract.2 "text" "English" [("score", .jstr "high")]).2.2.2.2
     (.jstr "high") rfl rfl,
   (c1_entry_feedback_contract.2 "text" "English" [("score", .jstr "high")]).2.1 rfl,
   (c1_entry_feedback_contract.2 "text" "English" [("score", .jstr "high")]).2.2.1 rfl,
   (c1_entry_feedback_contract.2 "text" "English" [("score", .jstr "high")]).2.2.2.1 rfl⟩

/-- C2: for every list-of-record field (grammar_suggestions, new_words) of
a decoded adapter output, each element is checked individually and failing
elements are dropped silently: a list of one malformed element among
well-formed ones validates to exactly the well-formed ones, and a value
that is not a list at all validates to the empty list. -/
theorem c2_partial_failure_tolerance (text language : String)
    (kvs : List (String × Json)) :
    (∀ (l₁ : List Json) (b : Json) (l₂ : List Json),
      objGet kvs "grammar_suggestions" = some (.jarr (l₁ ++ b :: l₂)) →
      (∀ x ∈ l₁, recordOk sugKeys x = true) →
      (∀ x ∈ l₂, recordOk sugKeys x = true) →
      recordOk sugKeys b = false →
      jfield (analyze_text_validate text language (.jobj kvs)) "grammar_suggestions" =
        some (.jarr (l₁ ++ l₂))) ∧
    (∀ (l₁ : List Json) (b : Json) (l₂ : List Json),
      objGet kvs "new_words" = some (.jarr (l₁ ++ b :: l₂)) →
      (∀ x ∈ l₁, recordOk wordKeys x = true) →
      (∀ x ∈ l₂, recordOk wordKeys x = true) →
      recordOk wordKeys b = false →
      jfield (analyze_text_validate text language (.jobj kvs)) "new_words" =
        some (.jarr (l₁ ++ l₂))) ∧
    (∀ v : Json, objGet kvs "grammar_suggestions" = some v →
      (∀ xs : List Json, v ≠ .jarr xs) →
      jfield (analyze_text_validate text language (.jobj kvs)) "grammar_suggestions" =
        some (.jarr [])) ∧
    (∀ v : Json, objGet kvs "new_words" = some v →
      (∀ xs : List Json, v ≠ .jarr xs) →
      jfield (analyze_text_validate text language (.jobj kvs)) "new_words" =
        some (.jarr [])) := by
  have harr : ∀ (keys : List String) (l₁ : List Json) (b : Json) (l₂ : List Json),
      (∀ x ∈ l₁, recordOk keys x = true) → (∀ x ∈ l₂, recordOk keys x = true) →
      recordOk keys b = false →
      fixList keys (.jarr (l₁ ++ b :: l₂)) = .jarr (l₁ ++ l₂) := by
    intro keys l₁ b l₂ h₁ h₂ hb
    simp [fixList, List.filter_append, List.filter_cons, hb,
      List.filter_eq_self.mpr h₁, List.filter_eq_self.mpr h₂]
  have hnon : ∀ (keys : List String) (v : Json), (∀ xs : List Json, v ≠ .jarr xs) →
      fixList keys v = .jarr [] := by
    intro keys v hv
    cases v with
    | jarr xs => exact absurd rfl (hv xs)
    | null => rfl
    | jbool b => rfl
    | jint n => rfl
    | jfloat q => rfl
    | jstr s => rfl
    | jobj kvs => rfl
  refine ⟨?_, ?_, ?_, ?_⟩
  · intro l₁ b l₂ h h₁ h₂ hb
    simp [analyze_text_validate_jobj, jfield, objGetD, h, harr sugKeys l₁ b l₂ h₁ h₂ hb]
  · intro l₁ b l₂ h h₁ h₂ hb
    simp [analyze_text_validate_jobj, jfield, objGetD, h, harr wordKeys l₁ b l₂ h₁ h₂ hb]
  · intro v h hv
    simp [analyze_text_validate_jobj, jfield, objGetD, h, hnon sugKeys v hv]
  · intro v h hv
    simp [analyze_text_validate_jobj, jfield, objGetD, h, hnon wordKeys v hv]

/-- A well-formed grammar suggestion used by the C2 witness. -/
def goodSug : Json :=
  .jobj [("original", .jstr "goed"), ("corrected", .jstr "went"), ("note", .jstr "irregular past")]

/-- A malformed grammar suggestion (missing corrected and note). -/
def badSug : Json := .jobj [("original", .jstr "goed")]

theorem c2_partial_failure_tolerance_witness :
    jfield (analyze_text_validate "t" "English"
        (.jobj [("grammar_suggestions", .jarr [goodSug, badSug]), ("new_words", .jstr "no")]))
      "grammar_suggestions" = some (.jarr [goodSug]) ∧
    jfield (analyze_text_validate "t" "English"
        (.jobj [("grammar_suggestions", .jarr [goodSug, badSug]), ("new_words", .jstr "no")]))
      "new_words" = some (.jarr []) := by
  constructor
  · have h := (c2_partial_failure_tolerance "t" "English"
      [("grammar_suggestions", .jarr [goodSug, badSug]), ("new_words", .jstr "no")]).1
      [goodSug] badSug [] rfl
      (by intro x hx; simp at hx; subst hx; rfl)
      (by intro x hx; simp at hx)
      rfl
    simpa using h
  · exact (c2_partial_failure_tolerance "t" "English"
      [("grammar_suggestions", .jarr [goodSug, badSug]), ("new_words", .jstr "no")]).2.2.2
      (.jstr "no") rfl (by intro xs h; cases h)

/-! Python string primitives used by the mock generator and the decode
paths, implemented over the character list so that they reduce in the
kernel. -/

/-- Python str.split() with no argument: split on whitespace runs,
discarding empty pieces.  The accumulator holds the current word
reversed. -/
def splitWsGo : List Char → List Char → List String
  | [], acc => if acc.isEmpty then [] else [String.mk acc.reverse]
  | c :: rest, acc =>
    if c.isWhitespace then
      (if acc.isEmpty then [] else [String.mk acc.reverse]) ++ splitWsGo rest []
    else splitWsGo rest (c :: acc)

def pySplitWs (s : String) : List String := splitWsGo s.data []

/-- Python " ".join(l). -/
def pyJoin (sep : String) : List String → String
  | [] => ""
  | [x] => x
  | x :: xs => x ++ sep ++ pyJoin sep xs

/-- Python s.replace(c, "") for a one-character pattern. -/
def pyRemoveChar (c : Char) (s : String) : String :=
  String.mk (s.data.filter (fun d => d ≠ c))

/-- Python s.lower() (ASCII case mapping suffices for the texts the
claims touch). -/
def pyLower (s : String) : String := String.mk (s.data.map Char.toLower)

/-- Python s.upper(). -/
def pyUpper (s : String) : String := String.mk (s.data.map Char.toUpper)

/-- Python list(set(l)) keeping the first occurrence of each element.
CPython set iteration order is implementation-defined; no theorem below
depends on the order, only on membership. -/
def dedupFirst (l : List String) : List String :=
  l.foldl (fun acc x => if x ∈ acc then acc else acc ++ [x]) []

/-- random.randint(a, b): inclusive bounds.  The random stream is an
oracle rng consumed at fixed positions; every Python execution of the
mock corresponds to some oracle, and every theorem below quantifies over
all oracles. -/
def randint (rng : Nat → Nat) (i a b : Nat) : Nat := a + rng i % (b - a + 1)

/-- random.choice(l) driven by the oracle. -/
def choice (rng : Nat → Nat) (i : Nat) (l : List String) : String :=
  l.getD (rng i % l.length) ""

/-- analyze_with_mock (backend/feedback_engine.py lines 237-323): the
orchestrator's last-resort feedback generator. -/
def analyze_with_mock (text language : String) (rng : Nat → Nat) : Json :=
  let fluency_score : Nat := randint rng 0 70 95
  let tone := choice rng 1 ["Reflective", "Confident", "Neutral", "Inquisitive"]
  let translation_target := if language ≠ "en" then "en" else "fr"
  let mock_rubric : Json := .jobj [
    ("grammar", .jint (randint rng 2 60 90)),
    ("vocabulary", .jint (randint rng 3 65 95)),
    ("complexity", .jint (randint rng 4 50 85))]
  let ws := pySplitWs text
  let sugs : List Json :=
    (if 3 < ws.length then
      [.jobj [("id", .jstr "mock-sugg-1"),
              ("original", .jstr (pyJoin " " (ws.take 3))),
              ("corrected", .jstr ("[Mock Corrected Snippet] " ++ pyJoin " " (ws.take 3))),
              ("note", .jstr "This is a mock suggestion. Consider rephrasing for clarity.")]]
     else []) ++
    (if 6 < ws.length then
      [.jobj [("id", .jstr "mock-sugg-2"),
              ("original", .jstr (pyJoin " " ((ws.drop 3).take 3))),
              ("corrected", .jstr ("[Mock Corrected Snippet 2] " ++ pyJoin " " ((ws.drop 3).take 3))),
              ("note", .jstr "Another mock suggestion about word choice.")]]
     else [])
  let words := dedupFirst ((pySplitWs (pyRemoveChar ',' (pyRemoveChar '.' (pyLower text)))).filter (fun w => w ≠ ""))
  let w1 := choice rng 5 words
  let w2 := choice rng 8 (words.filter (fun w => w ≠ w1))
  let nws : List Json :=
    (if words ≠ [] then
      [.jobj [("id", .jstr "mock-word-1"), ("term", .jstr w1), ("reading", .null),
              ("pos", .jstr (choice rng 6 ["noun", "verb", "adjective", "adverb"])),
              ("definition", .jstr ("This is a mock definition for \x27" ++ w1 ++ "\x27.")),
              ("example", .jstr ("A mock example sentence using \x27" ++ w1 ++ "\x27.")),
              ("proficiency", .jstr (choice rng 7 ["beginner", "intermediate", "advanced"]))]]
     else []) ++
    (if 1 < words.length then
      [.jobj [("id", .jstr "mock-word-2"), ("term", .jstr w2), ("reading", .null),
              ("pos", .jstr (choice rng 9 ["noun", "verb", "adjective"])),
              ("definition", .jstr ("Mock definition for the word \x27" ++ w2 ++ "\x27.")),
              ("example", .jstr ("Another example, this time with \x27" ++ w2 ++ "\x27.")),
              ("proficiency", .jstr (choice rng 10 ["A2", "B1", "C1"]))]]
     else [])
  let expl_word := choice rng 11 (if words.isEmpty then ["example"] else words)
  .jobj [
    ("corrected", .jstr ("[Mock Corrected] " ++ text)),
    ("rewrite", .jstr ("[Mock Rewritten] " ++ text ++ " (more fluently and naturally)")),
    ("score", .jint fluency_score),
    ("rubric", mock_rubric),
    ("tone", .jstr tone),
    ("translation", .jstr ("[Mock Translation to " ++ pyUpper translation_target ++ "] " ++ text)),
    ("explanation", .jstr ("[Mock Explanation] This is a mock explanation. The text shows good potential. The word \x27" ++ expl_word ++ "\x27 was used effectively.")),
    ("grammar_suggestions", .jarr sugs),
    ("new_words", .jarr nws),
    ("corrected_text", .jstr ("[Mock Corrected Text] " ++ text)),
    ("vocabulary_suggestions", .jarr [.jobj [("word", .jstr "good"), ("suggestion", .jstr "excellent"), ("context", .jstr "This is a good example.")]]),
    ("tone_emotion", .jarr [.jstr (pyLower tone)])]

/-- The provider adapters the orchestrator can attempt, in the order it
attempts them. -/
inductive Adapter where
  | mistral
  | gemini
  | mock
deriving DecidableEq

/-- Module-level initialization of backend/feedback_engine.py lines
30-38: the Gemini engine is constructed only when USE_MISTRAL is false;
a construction failure leaves it None. -/
def init_gemini_engine (useMistral constructionOk : Bool) : Option Unit :=
  if useMistral then none else (if constructionOk then some () else none)

/-- analyze_entry (backend/feedback_engine.py lines 101-142) as a
function of the module state (USE_MISTRAL, gemini_ai_engine) and of the
outcome of each adapter call (.error models a raised exception).  The
returned trace lists the attempts in order. -/
def analyze_entry_orch (useMistral : Bool) (gem : Option Unit)
    (mistralRes gemRes : Except Unit Json) (mockRes : Json) : Json × List Adapter :=
  if useMistral then
    match mistralRes with
    | .ok r => (r, [.mistral])
    | .error _ =>
      if gem.isSome then
        match gemRes with
        | .ok r => (r, [.mistral, .gemini])
        | .error _ => (mockRes, [.mistral, .gemini, .mock])
      else (mockRes, [.mistral, .mock])
  else
    if gem.isSome then
      match gemRes with
      | .ok r => (r, [.gemini])
      | .error _ => (mockRes, [.gemini, .mock])
    else (mockRes, [.mock])

/-- analyze_entry with the mock fallback instantiated to
analyze_with_mock, as in the source. -/
def analyze_entry (useMistral : Bool) (gem : Option Unit)
    (mistralRes gemRes : Except Unit Json) (text language : String)
    (rng : Nat → Nat) : Json × List Adapter :=
  analyze_entry_orch useMistral gem mistralRes gemRes (analyze_with_mock text language rng)

/-- The claim C3 as stated is false on the code: in the only module state
the initializer produces with Mistral first (USE_MISTRAL true), the
Gemini engine is None, so when Mistral fails the orchestrator returns the
mock result and Gemini is never attempted, even though a succeeding
Gemini adapter exists. -/
theorem c3_fallback_order_counterexample :
    init_gemini_engine true true = none ∧
    (analyze_entry true (init_gemini_engine true true) (.error ()) (.ok (.jstr "gemini"))
      "Yesterday I goed to the store." "English" (fun _ => 0)).2 = [.mistral, .mock] ∧
    Adapter.gemini ∉ (analyze_entry true (init_gemini_engine true true) (.error ()) (.ok (.jstr "gemini"))
      "Yesterday I goed to the store." "English" (fun _ => 0)).2 ∧
    (analyze_entry true (init_gemini_engine true true) (.error ()) (.ok (.jstr "gemini"))
      "Yesterday I goed to the store." "English" (fun _ => 0)).1 ≠ .jstr "gemini" := by
  refine ⟨rfl, rfl, ?_, ?_⟩
  · show Adapter.gemini ∉ [Adapter.mistral, Adapter.mock]
    decide
  · intro h
    exact Json.noConfusion h

/-- C3 amended: within analyze_entry itself, were the Gemini engine
present alongside Mistral, adapters are tried strictly in priority order
with one attempt each — Mistral before Gemini, Gemini's output returned
when Mistral fails, Gemini never attempted when Mistral succeeds; but the
module initializer constructs the Gemini engine only when USE_MISTRAL is
false, so in the state the source builds, a Mistral failure falls through
to the mock generator, never to Gemini. -/
theorem c3_fallback_order_amended (g m mk : Json) (gr : Except Unit Json) (ok : Bool) :
    analyze_entry_orch true (some ()) (.error ()) (.ok g) mk = (g, [.mistral, .gemini]) ∧
    analyze_entry_orch true (some ()) (.ok m) gr mk = (m, [.mistral]) ∧
    init_gemini_engine true ok = none ∧
    analyze_entry_orch true (init_gemini_engine true ok) (.error ()) gr mk = (mk, [.mistral, .mock]) ∧
    analyze_entry_orch false (some ()) gr (.ok g) mk = (g, [.gemini]) :=
  ⟨rfl, rfl, rfl, rfl, rfl⟩

theorem scoreOk_jint (n : Int) (h1 : 0 ≤ n) (h2 : n ≤ 100) : scoreOk (.jint n) = true := by
  simp [scoreOk, isInstInt, intVal, h1, h2]

theorem randint_bounds (rng : Nat → Nat) (i a b : Nat) (h : a ≤ b) :
    a ≤ randint rng i a b ∧ randint rng i a b ≤ b := by
  unfold randint
  have : rng i % (b - a + 1) < b - a + 1 := Nat.mod_lt _ (by omega)
  omega

/-- The claim C4 as stated is false on the code: at the documented
example input with every adapter raising, the orchestrator's fallback is
analyze_with_mock, whose score is 70..95 (never 0) and whose
grammar-suggestion list is non-empty for this input.  (The score-0 /
original-text / empty-suggestions record described by the claim is what
GeminiEngine._get_error_fallback returns, exercised in the C1 theorem,
not what the orchestrator returns on total exhaustion.) -/
theorem c4_exhaustion_counterexample :
    (∃ n : Int, jfield (analyze_entry true (init_gemini_engine true true) (.error ()) (.error ())
        "Yesterday I goed to the store." "English" (fun _ => 0)).1 "score" = some (.jint n) ∧ n ≠ 0) ∧
    (∃ (x : Json) (l : List Json),
      jfield (analyze_entry true (init_gemini_engine true true) (.error ()) (.error ())
        "Yesterday I goed to the store." "English" (fun _ => 0)).1 "grammar_suggestions" =
          some (.jarr (x :: l))) :=
  ⟨⟨70, rfl, by decide⟩, ⟨_, _, rfl⟩⟩

/-- C4 amended: when every adapter fails, analyze_entry returns
analyze_with_mock's record — never an exception — and that record is
structurally valid (every contract field present, score and rubric in
range): its score is a random value in 70..95, its corrected field is
derived from the input text, and its grammar-suggestion list is empty
exactly when the input has at most three words. -/
theorem c4_total_fallback_exhaustion (useMistral : Bool) (gem : Option Unit)
    (text language : String) (rng : Nat → Nat) :
    (analyze_entry useMistral gem (.error ()) (.error ()) text language rng).1
      = analyze_with_mock text language rng ∧
    contractOk (analyze_with_mock text language rng) = true ∧
    (∃ n : Nat, jfield (analyze_with_mock text language rng) "score" = some (.jint n) ∧
      70 ≤ n ∧ n ≤ 95) ∧
    jfield (analyze_with_mock text language rng) "corrected"
      = some (.jstr ("[Mock Corrected] " ++ text)) ∧
    (∃ l : List Json, jfield (analyze_with_mock text language rng) "grammar_suggestions"
      = some (.jarr l) ∧ (l = [] ↔ (pySplitWs text).length ≤ 3)) := by
  refine ⟨?_, ?_, ?_, rfl, ?_⟩
  · cases useMistral <;> cases gem <;> rfl
  · have b0 := randint_bounds rng 0 70 95 (by omega)
    have b2 := randint_bounds rng 2 60 90 (by omega)
    have b3 := randint_bounds rng 3 65 95 (by omega)
    have b4 := randint_bounds rng 4 50 85 (by omega)
    have h0 : scoreOk (.jint (randint rng 0 70 95)) = true :=
      scoreOk_jint _ (by exact_mod_cast Nat.zero_le _)
        (by exact_mod_cast le_trans b0.2 (by omega))
    have h2 : scoreOk (.jint (randint rng 2 60 90)) = true :=
      scoreOk_jint _ (by exact_mod_cast Nat.zero_le _)
        (by exact_mod_cast le_trans b2.2 (by omega))
    have h3 : scoreOk (.jint (randint rng 3 65 95)) = true :=
      scoreOk_jint _ (by exact_mod_cast Nat.zero_le _)
        (by exact_mod_cast le_trans b3.2 (by omega))
    have h4 : scoreOk (.jint (randint rng 4 50 85)) = true :=
      scoreOk_jint _ (by exact_mod_cast Nat.zero_le _)
        (by exact_mod_cast le_trans b4.2 (by omega))
    simp [analyze_with_mock, contractOk, requiredFields, rubricOk, rubricKeys,
      h0, h2, h3, h4]
  · exact ⟨randint rng 0 70 95, rfl, (randint_bounds rng 0 70 95 (by omega)).1,
      (randint_bounds rng 0 70 95 (by omega)).2⟩
  · refine ⟨_, rfl, ?_⟩
    by_cases h3 : 3 < (pySplitWs text).length
    · by_cases h6 : 6 < (pySplitWs text).length
      · simp [h3, h6]
      · simp [h3, h6]
    · by_cases h6 : 6 < (pySplitWs text).length
      · omega
      · simp [h3, h6]
        omega

/-! The enrichment cache service
(backend/app/services/ai_enrichment_service.py), in two layers.  The
first layer (EnrichEnv, get_or_create_enriched_details_service) is the
generate-validate-upsert-return flow the statements of the service body
spell out, with the persistence and subject-resolution collaborators and
the pydantic constructions of app.models entered as outcome-typed
parameters.  That flow is idealized: the calls the service makes into
database.py pass keyword arguments the callees do not declare, and the
attributes it reads off the returned values do not exist on the plain
dicts database.py returns.  The second layer (bindsKwargs through
get_or_create_enriched_details_run, further below) records those
boundary facts from the source and models what invoking the service
actually does. -/

/-- The vocabulary item as the service flow intends to see it
(vocab_item.language and vocab_item.word at service lines 72-79); word
is the term to enrich, an empty string standing for the Python-falsy
missing word.  What database.py really returns is a plain dict whose
term column is named "term" (see vocabulary_row_fields below), so these
attribute reads raise on the actual value. -/
structure VocabItem where
  language : String
  word : String

/-- The failure-placeholder record of call_ai_for_word_enrichment
(service lines 41-50). -/
def enrichment_failure_fallback : Json :=
  .jobj [
    ("ai_example_sentences", .jarr []),
    ("ai_synonyms", .jarr []),
    ("ai_antonyms", .jarr []),
    ("ai_related_phrases", .jarr []),
    ("ai_cultural_note", .jstr "AI enrichment failed."),
    ("ai_definitions", .jarr [])]

/-- call_ai_for_word_enrichment (service lines 29-50): a generation
failure is converted into the placeholder record, never an exception. -/
def call_ai_for_word_enrichment (genRaw : Except Unit Json) : Json :=
  match genRaw with
  | .ok d => d
  | .error _ => enrichment_failure_fallback

/-- The collaborators and fallible constructions one call of the service
flow interacts with.  The Option-valued fields idealize boundaries whose
actual calls raise deterministically (the keyword-binding and
dict-attribute facts recorded after c6 below); they describe the flow
the source text spells out, not what executing it reaches. -/
structure EnrichEnv where
  /-- Subject resolution: none is item-missing-or-not-owned. -/
  fetchVocab : Option VocabItem
  /-- Outcome of feedback_engine.generate_word_enrichment_details. -/
  genRaw : Except Unit Json
  /-- WordAiCacheCreate(word_vocabulary_id, language, **data):
  none models a raised pydantic validation error. -/
  toCacheCreate : Json → Option Json
  /-- save_word_ai_cache_entry upsert: none models its save-failed
  return value None. -/
  savePolicy : Json → Option Json
  /-- EnrichedWordDetailsResponse(**entry.model_dump()): none models a
  raised transformation error. -/
  toResponse : Json → Option Json
  /-- The response built on the save-failure path from the transient
  uuid4 and the attempted cache model. -/
  mkFailResponse : Nat → Json → Option Json
  /-- The transient identifier uuid.uuid4() would assign. -/
  tid : Nat

/-- What one call of the service produced: HTTP outcome (error carries
the status code), the cache entry for the key afterwards, the number of
generation calls made, and the entries successfully written. -/
structure EnrichResult where
  outcome : Except Nat Json
  newCache : Option Json
  genCalls : Nat
  writes : List Json

/-- The flow the body of get_or_create_enriched_details_service
(service lines 52-132) spells out, statement by statement: resolve the
subject (404 when missing, 400 on language mismatch, 500 on a missing
word), return a transformed cache hit directly, otherwise generate,
validate, upsert and return — with the save-failure path returning the
fresh result under a transient identifier, and any raised
validation/transformation error caught by the outer handler as a 500.
Executing the source never reaches these branches: the line-64 fetch
call fails keyword binding first (see
get_or_create_enriched_details_run below). -/
def get_or_create_enriched_details_service (env : EnrichEnv) (language : String)
    (cache : Option Json) : EnrichResult :=
  match env.fetchVocab with
  | none => ⟨.error 404, cache, 0, []⟩
  | some v =>
    if v.language ≠ language then ⟨.error 400, cache, 0, []⟩
    else if v.word = "" then ⟨.error 500, cache, 0, []⟩
    else
      match (match cache with
             | some e => env.toResponse e
             | none => none) with
      | some r => ⟨.ok r, cache, 0, []⟩
      | none =>
        let data := call_ai_for_word_enrichment env.genRaw
        match env.toCacheCreate data with
        | none => ⟨.error 500, cache, 1, []⟩
        | some c =>
          match env.savePolicy c with
          | none =>
            match env.mkFailResponse env.tid c with
            | some r => ⟨.ok r, cache, 1, []⟩
            | none => ⟨.error 500, cache, 1, []⟩
          | some saved =>
            match env.toResponse saved with
            | some r => ⟨.ok r, some saved, 1, [c]⟩
            | none => ⟨.error 500, some saved, 1, [c]⟩

/-- C6: the cache-write invariant — every entry the service successfully
upserts is the image of a cache model that passed validation
(WordAiCacheCreate construction) on this call's generated data; nothing
is ever written on a path where validation failed. -/
theorem c6_cache_write_validated (env : EnrichEnv) (language : String)
    (cache : Option Json) :
    ∀ w ∈ (get_or_create_enriched_details_service env language cache).writes,
      env.toCacheCreate (call_ai_for_word_enrichment env.genRaw) = some w := by
  unfold get_or_create_enriched_details_service
  cases hv : env.fetchVocab with
  | none => intro w hw; simp at hw
  | some v =>
    by_cases hl : v.language ≠ language
    · intro w hw; simp [hl] at hw
    · by_cases hword : v.word = ""
      · intro w hw; simp [hl, hword] at hw
      · cases hhit : (match cache with
                      | some e => env.toResponse e
                      | none => none) with
        | some r => intro w hw; simp [hl, hword, hhit] at hw
        | none =>
          cases hcc : env.toCacheCreate (call_ai_for_word_enrichment env.genRaw) with
          | none => intro w hw; simp [hl, hword, hhit, hcc] at hw
          | some c =>
            cases hs : env.savePolicy c with
            | none =>
              cases hmk : env.mkFailResponse env.tid c with
              | none => intro w hw; simp [hl, hword, hhit, hcc, hs, hmk] at hw
              | some r => intro w hw; simp [hl, hword, hhit, hcc, hs, hmk] at hw
            | some saved =>
              cases hr : env.toResponse saved with
              | none =>
                intro w hw
                simp [hl, hword, hhit, hcc, hs, hr] at hw
                subst hw; rfl
              | some r =>
                intro w hw
                simp [hl, hword, hhit, hcc, hs, hr] at hw
                subst hw; rfl

/-- Concrete generated data used by the service witnesses. -/
def witGenData : Json := .jobj [("ai_cultural_note", .jstr "a note")]

/-- A concrete environment in which generation, validation, save and
transformation all succeed; corrupt cache entries are the string-shaped
ones, which the response transformation rejects. -/
def witEnv : EnrichEnv :=
  ⟨some ⟨"en", "flabbergasted"⟩, .ok witGenData,
   fun d => some (.jobj [("data", d)]),
   fun c => some (.jobj [("id", .jint 1), ("entry", c)]),
   fun d => match d with
            | .jstr _ => none
            | _ => some (.jobj [("resp", d)]),
   fun t c => some (.jobj [("tid", .jint t), ("fail", c)]),
   7⟩

def witCreate : Json := .jobj [("data", witGenData)]

theorem c6_cache_write_validated_witness :
    witEnv.toCacheCreate (call_ai_for_word_enrichment witEnv.genRaw) = some witCreate :=
  c6_cache_write_validated witEnv "en" none witCreate
    (show witCreate ∈ [witCreate] from List.mem_singleton.mpr rfl)

/-! What a call of the service actually does, Python call semantics
included: the boundary facts the idealized flow above abstracts away,
each taken directly from the source. -/

/-- Python keyword binding: a call written only with keyword arguments
binds exactly when every keyword names a declared parameter of the
callee (none of the callees here takes **kwargs); an unexpected keyword
raises TypeError before the callee body runs. -/
def bindsKwargs (params kwargs : List String) : Bool :=
  kwargs.all (fun k => params.contains k)

/-- The declared parameters of
database.fetch_vocabulary_item_by_id_and_user (database.py line 504). -/
def fetch_vocabulary_item_by_id_and_user_params : List String :=
  ["item_id", "user_id"]

/-- The keywords the service passes to that function at line 64. -/
def service_fetch_vocab_call_kwargs : List String :=
  ["db", "item_id", "user_id"]

/-- The declared parameters of database.fetch_word_ai_cache_entry
(database.py line 535). -/
def fetch_word_ai_cache_entry_params : List String :=
  ["word_vocabulary_id", "language"]

/-- The keywords the service passes to that function at line 88. -/
def service_fetch_cache_call_kwargs : List String :=
  ["db", "word_vocabulary_id", "language"]

/-- The declared parameters of database.save_word_ai_cache_entry
(database.py line 566). -/
def save_word_ai_cache_entry_params : List String := ["cache_data"]

/-- The keywords the service passes to that function at line 112. -/
def service_save_call_kwargs : List String := ["db", "cache_entry_data"]

/-- The public non-dunder attributes of a CPython dict — what the
values database.py returns (plain dicts out of response.data) actually
expose.  The pydantic attributes the service reads (model_dump at
service lines 94 and 125, language and word at lines 72-79) are not
among them, so each such access raises AttributeError. -/
def dict_attributes : List String :=
  ["keys", "values", "items", "get", "pop", "popitem", "clear",
   "update", "setdefault", "copy", "fromkeys"]

def dictHasAttr (attr : String) : Bool := dict_attributes.contains attr

/-- The columns database.py line 519 selects for a vocabulary item row:
the term lives under the key "term"; there is no "word" column. -/
def vocabulary_row_fields : List String :=
  ["id", "user_id", "term", "language", "part_of_speech", "definition",
   "reading", "example_sentence", "status", "created_at", "updated_at",
   "entry_id"]

/-- The outcome of actually invoking the service. -/
inductive ServiceOutcome where
  | result (r : EnrichResult)
  | uncaughtTypeError

/-- get_or_create_enriched_details_service as executed: the line-64
fetch call stands outside every try, so a failed keyword binding there
is an uncaught TypeError; only if it bound would the idealized flow
above be reached (itself still optimistic about the dict-attribute
accesses and the line-88/112 bindings, recorded by the definitions
above). -/
def get_or_create_enriched_details_run (env : EnrichEnv) (language : String)
    (cache : Option Json) : ServiceOutcome :=
  if bindsKwargs fetch_vocabulary_item_by_id_and_user_params
      service_fetch_vocab_call_kwargs then
    .result (get_or_create_enriched_details_service env language cache)
  else .uncaughtTypeError

/-- C5 (code bug): every call of the service raises an uncaught
TypeError at the line-64 fetch (the db keyword does not bind against
database.py), so a second call never returns the cached result with
zero generation calls; and even under repaired call wiring, the
cache-hit transform calls model_dump on the plain dict the database
layer returns, which has no such attribute, and the term is read from a
word field the row does not carry. -/
theorem c5_cache_idempotence_code_bug (env : EnrichEnv) (language : String)
    (cache : Option Json) :
    get_or_create_enriched_details_run env language cache = .uncaughtTypeError ∧
    bindsKwargs fetch_vocabulary_item_by_id_and_user_params
      service_fetch_vocab_call_kwargs = false ∧
    dictHasAttr "model_dump" = false ∧
    vocabulary_row_fields.contains "word" = false ∧
    vocabulary_row_fields.contains "term" = true :=
  ⟨rfl, rfl, rfl, rfl, rfl⟩

/-- C7 (code bug): the save-returned-None branch the claim describes is
dead — the line-112 save call passes keywords save_word_ai_cache_entry
does not accept, so instead of returning None it raises TypeError,
which the outer handler turns into a 500 that discards the fresh
output; and line 64 already raises an uncaught TypeError on every call
before that point. -/
theorem c7_persistence_failure_code_bug (env : EnrichEnv) (language : String)
    (cache : Option Json) :
    get_or_create_enriched_details_run env language cache = .uncaughtTypeError ∧
    bindsKwargs save_word_ai_cache_entry_params service_save_call_kwargs = false :=
  ⟨rfl, rfl⟩

/-- C9 (code bug): on every call the caller receives neither a usable
result nor NotFound/Forbidden but an uncaught TypeError — the line-64
failure precedes the 404 and 400 checks — and even under repaired
bindings the language check at line 72 reads the language attribute off
a plain dict, which a dict does not expose. -/
theorem c9_error_surface_code_bug (env : EnrichEnv) (language : String)
    (cache : Option Json) :
    get_or_create_enriched_details_run env language cache = .uncaughtTypeError ∧
    (∀ r : EnrichResult,
      (ServiceOutcome.uncaughtTypeError : ServiceOutcome) ≠ .result r) ∧
    dictHasAttr "language" = false :=
  ⟨rfl, fun _ h => ServiceOutcome.noConfusion h, rfl⟩

/-- C10 (code bug): the regenerate-upsert-return recovery cannot
complete — every call raises an uncaught TypeError at line 64 before
the cache is ever read (the line-88 cache fetch call does not bind
either), and even with the bindings repaired the fresh return at line
125 calls model_dump on the dict the save returns, raising into the
outer 500 instead of delivering the regenerated result. -/
theorem c10_corrupt_cache_code_bug (env : EnrichEnv) (language : String)
    (cache : Option Json) :
    get_or_create_enriched_details_run env language cache = .uncaughtTypeError ∧
    bindsKwargs fetch_word_ai_cache_entry_params
      service_fetch_cache_call_kwargs = false ∧
    dictHasAttr "model_dump" = false :=
  ⟨rfl, rfl, rfl⟩

/-! The decode paths of the structured-generation adapters (claim C8). -/

/-- Python strip(): remove leading and trailing whitespace. -/
def pyTrim (s : String) : String :=
  String.mk (((s.data.dropWhile Char.isWhitespace).reverse.dropWhile Char.isWhitespace).reverse)

/-- Boolean list-prefix test. -/
def listPrefix : List Char → List Char → Bool
  | [], _ => true
  | _ :: _, [] => false
  | c :: cs, d :: ds => (c = d) && listPrefix cs ds

/-- Python s.startswith(pre). -/
def pyStartsWith (s pre : String) : Bool := listPrefix pre.data s.data

theorem listPrefix_append_left (p q s : List Char)
    (h : listPrefix (p ++ q) s = true) : listPrefix p s = true := by
  induction p generalizing s with
  | nil => rfl
  | cons c cs ih =>
    cases s with
    | nil => simp [listPrefix] at h
    | cons d ds =>
      simp [listPrefix] at h ⊢
      exact ⟨h.1, ih ds h.2⟩

/-- Python s[start:-3]. -/
def pySliceToNeg3 (s : String) (start : Nat) : String :=
  String.mk ((s.data.drop start).take (s.data.length - 3 - start))

/-- The fence-stripping step shared by the decode paths of
backend/app/ai_engines/gemini_engine.py (analyze_journal_entry lines
48-54, generate_word_enrichment_details_gemini lines 76-82,
generate_mini_quiz_gemini lines 125-131): raw.strip()[7:-3].strip() when
the trimmed text opens a json fence, raw.strip()[3:-3].strip() for a bare
fence, the raw text unchanged otherwise. -/
def strip_code_fence (raw : String) : String :=
  let s := pyTrim raw
  if pyStartsWith s "```json" then pyTrim (pySliceToNeg3 s 7)
  else if pyStartsWith s "```" then pyTrim (pySliceToNeg3 s 3)
  else raw

/-- analyze_journal_entry decode (app engine lines 45-59): strip the
fence then parse; an absent or empty response, or a decode failure,
yields the empty dict. -/
def analyze_journal_entry_decode (parse : String → Option Json) (raw : Option String) : Json :=
  match raw with
  | none => .jobj []
  | some r =>
    if r = "" then .jobj []
    else
      match parse (strip_code_fence r) with
      | some j => j
      | none => .jobj []

/-- The text generate_custom_json (backend/gemini_engine.py lines
237-258) hands to json.loads: the raw response text, with no fence
stripping. -/
def generate_custom_json_decoded_text (raw : String) : String := raw

/-- generate_custom_json: decode the raw text directly; a decode failure
or a non-dict/non-list value raises ValueError, modelled as .error. -/
def generate_custom_json (parse : String → Option Json) (raw : String) : Except Unit Json :=
  match parse (generate_custom_json_decoded_text raw) with
  | none => .error ()
  | some j =>
    match j with
    | .jobj _ => .ok j
    | .jarr _ => .ok j
    | _ => .error ()

/-- get_field_data_gemini (backend/feedback_engine.py lines 339-347):
the orchestrating caller catches the raised ValueError and records None
for the field. -/
def get_field_data_gemini (res : Except Unit Json) : Option Json :=
  match res with
  | .ok j => some j
  | .error _ => none

def lbrace : Char := Char.ofNat 123

def rbrace : Char := Char.ofNat 125

/-- The extraction step of analyze_entry_with_transformers
(backend/mistral_engine.py lines 270-273): the substring from the first
opening brace to the last closing brace, when that span is non-empty. -/
def mistral_extract_json (s : String) : Option String :=
  let cs := s.data
  match cs.findIdx? (fun d => d = lbrace), cs.reverse.findIdx? (fun d => d = rbrace) with
  | some i, some jr =>
    let jend := cs.length - jr
    if i < jend then some (String.mk ((cs.drop i).take (jend - i))) else none
  | _, _ => none

/-- analyze_entry_mock (backend/mistral_engine.py lines 314-344). -/
def mistral_analyze_entry_mock (text language : String) (rng : Nat → Nat) : Json :=
  let translation :=
    if pyLower language = "english" then
      "Ceci est une traduction fictive du texte anglais en French."
    else if pyLower language = "spanish" then
      "Esta es una traducción simulada del texto en español al inglés."
    else "This is a mock translation of the " ++ language ++ " text to English."
  .jobj [
    ("corrected", .jstr ("[Mock Corrected " ++ language ++ "] " ++ text)),
    ("rewrite", .jstr ("[Mock Rewritten more fluently in " ++ language ++ "] " ++ text)),
    ("fluency_score", .jint (randint rng 0 60 95)),
    ("tone", .jstr (choice rng 1 ["neutral", "positive", "slightly concerned", "formal"])),
    ("translation", .jstr translation),
    ("explanation", .jstr ("[Mock Explanation] The anlysis was for " ++ language ++ ". The main point was X, and we corrected Y because Z."))]

/-- analyze_entry_with_transformers decode-and-map
(backend/mistral_engine.py lines 263-311): extract the brace-delimited
span, parse it, default each missing required key (the injected defaults
are what the subsequent .get mapping then reads back), and map to the
output record; any extraction or decode failure, and any non-dict decoded
value (whose key assignment raises), falls back to the mock. -/
def mistral_analyze_entry_with_transformers (parse : String → Option Json)
    (raw text language : String) (rng : Nat → Nat) : Json :=
  match mistral_extract_json raw with
  | none => mistral_analyze_entry_mock text language rng
  | some sub =>
    match parse sub with
    | none => mistral_analyze_entry_mock text language rng
    | some j =>
      match j with
      | .jobj kvs =>
        .jobj [
          ("corrected", objGetD kvs "corrected_text" (.jstr text)),
          ("rewrite", objGetD kvs "fluent_rewrite" (.jstr text)),
          ("fluency_score", objGetD kvs "fluency_score" (.jint 50)),
          ("tone", objGetD kvs "tone_analysis" (.jstr "Default value for missing tone_analysis")),
          ("translation", objGetD kvs "target_language_translation" (.jstr "Default value for missing target_language_translation")),
          ("explanation", objGetD kvs "explanation_of_changes" (.jstr "Default value for missing explanation_of_changes"))]
      | _ => mistral_analyze_entry_mock text language rng

/-- GeminiEngine.analyze_text (backend/gemini_engine.py lines 101-183):
the raw response is decoded with no fence stripping; an API error or a
decode failure yields the error-fallback record, otherwise the decoded
value goes through the validator. -/
def analyze_text (parse : String → Option Json) (api : Except String String)
    (text language : String) : Json :=
  match api with
  | .error e => get_error_fallback text language ("API call/processing error: " ++ e)
  | .ok raw =>
    match parse raw with
    | none => get_error_fallback text language "JSON parsing error from AI."
    | some j => analyze_text_validate text language j

/-- A fenced JSON payload as a backend might return it. -/
def fencedJson : String := "```json\n\x7b\"a\": 1\x7d\n```"

/-- The claim C8 as stated is false on the code: generate_custom_json in
backend/gemini_engine.py hands json.loads the raw response text
unchanged, so a fenced payload reaches the decoder still wearing its
fence — while the app-engine strip would have removed it. -/
theorem c8_fence_strip_counterexample :
    generate_custom_json_decoded_text fencedJson = fencedJson ∧
    pyStartsWith fencedJson "```" = true ∧
    strip_code_fence fencedJson = "\x7b\"a\": 1\x7d" ∧
    strip_code_fence fencedJson ≠ fencedJson := by
  refine ⟨rfl, rfl, rfl, ?_⟩
  intro h
  have : ("\x7b\"a\": 1\x7d" : String) = fencedJson := by
    rw [← h]; rfl
  exact absurd this (by decide)

/-- C8 amended: the vocabulary-AI Gemini adapter strips ```json/```
fences before decoding (leaving unfenced text untouched) and turns a
decode failure into the empty-dict fallback; the Mistral adapter's
first-brace-to-last-brace extraction removes fence wrapping and falls
back to its mock output on extraction or decode failure; but the
journal-feedback Gemini engine decodes the raw text without stripping —
analyze_text answers a decode failure with its error-fallback record,
and generate_custom_json raises ValueError, which its orchestrating
caller catches as a missing field. -/
theorem c8_decode_paths (parse : String → Option Json) (raw text language : String)
    (rng : Nat → Nat) :
    (pyStartsWith (pyTrim raw) "```" = false → strip_code_fence raw = raw) ∧
    (parse (strip_code_fence raw) = none → raw ≠ "" →
      analyze_journal_entry_decode parse (some raw) = .jobj []) ∧
    generate_custom_json_decoded_text raw = raw ∧
    (parse raw = none → generate_custom_json parse raw = .error () ∧
      get_field_data_gemini (generate_custom_json parse raw) = none) ∧
    mistral_extract_json fencedJson = some "\x7b\"a\": 1\x7d" ∧
    (mistral_extract_json raw = none →
      mistral_analyze_entry_with_transformers parse raw text language rng =
        mistral_analyze_entry_mock text language rng) ∧
    (∀ sub : String, mistral_extract_json raw = some sub → parse sub = none →
      mistral_analyze_entry_with_transformers parse raw text language rng =
        mistral_analyze_entry_mock text language rng) ∧
    (parse raw = none → analyze_text parse (.ok raw) text language =
      get_error_fallback text language "JSON parsing error from AI.") := by
  refine ⟨?_, ?_, rfl, ?_, rfl, ?_, ?_, ?_⟩
  · intro h
    have h7 : pyStartsWith (pyTrim raw) "```json" = false := by
      cases hj : pyStartsWith (pyTrim raw) "```json" with
      | false => rfl
      | true =>
        have h3 : pyStartsWith (pyTrim raw) "```" = true :=
          listPrefix_append_left "```".data "json".data (pyTrim raw).data hj
        rw [h] at h3
        exact Bool.noConfusion h3
    unfold strip_code_fence
    simp [h7, h]
  · intro hp hr
    simp [analyze_journal_entry_decode, hr, hp]
  · intro hp
    constructor
    · simp [generate_custom_json, generate_custom_json_decoded_text, hp]
    · simp [generate_custom_json, generate_custom_json_decoded_text, get_field_data_gemini, hp]
  · intro h
    simp [mistral_analyze_entry_with_transformers, h]
  · intro sub hs hp
    simp [mistral_analyze_entry_with_transformers, hs, hp]
  · intro hp
    simp [analyze_text, hp]

theorem c8_decode_paths_witness :
    strip_code_fence "not json" = "not json" ∧
    analyze_journal_entry_decode (fun _ => none) (some "not json") = .jobj [] ∧
    generate_custom_json (fun _ => none) "not json" = .error () ∧
    get_field_data_gemini (generate_custom_json (fun _ => none) "not json") = none ∧
    mistral_analyze_entry_with_transformers (fun _ => none) "not json" "t" "English" (fun _ => 0) =
      mistral_analyze_entry_mock "t" "English" (fun _ => 0) ∧
    analyze_text (fun _ => none) (.ok "not json") "t" "English" =
      get_error_fallback "t" "English" "JSON parsing error from AI." :=
  let T := c8_decode_paths (fun _ => none) "not json" "t" "English" (fun _ => 0)
  ⟨T.1 rfl, T.2.1 rfl (by decide), (T.2.2.2.1 rfl).1, (T.2.2.2.1 rfl).2,
   T.2.2.2.2.2.1 rfl, T.2.2.2.2.2.2.2 rfl⟩

end LinguaLog
